import Mathlib

/-!
Verification of the BudgetAI classification-and-suggestion engine
(`ai_model.py` of the budgetbuddy repository), shallowly embedded in Lean.

Python floats on monetary amounts and percentages are modelled as rationals;
the fitted scikit-learn ensemble is kept abstract (the fitted artifact is the
deterministic record of training data and hyperparameters, and its decision
function is a parameter `rf` of the orchestrator), since the library's fitting
code is not part of the repository.
-/

/-- A transaction record as consumed by the engine: `type` is the Python
string tag (`"income"` or `"expense"`), `category` is free text, `amount`
the monetary amount. -/
structure Transaction where
  type : String
  category : String
  amount : ℚ
deriving DecidableEq

/-- The 8-slot `spending_by_category` dictionary of `analyze_spending`
(ai_model.py lines 125-129), one field per fixed key. -/
structure Spending where
  Food : ℚ
  Transport : ℚ
  Entertainment : ℚ
  Bills : ℚ
  Shopping : ℚ
  Healthcare : ℚ
  Education : ℚ
  Other : ℚ
deriving DecidableEq

/-- The initial dictionary: every category slot starts at 0. -/
def initSpending : Spending :=
  ⟨0, 0, 0, 0, 0, 0, 0, 0⟩

/-- One iteration of the accumulation loop (ai_model.py lines 131-137):
expense transactions add their amount to the matching category slot when the
category is one of the 8 dictionary keys, otherwise to `Other`; income
transactions are ignored. -/
def addExpense (s : Spending) (t : Transaction) : Spending :=
  if t.type = "expense" then
    if t.category = "Food" then { s with Food := s.Food + t.amount }
    else if t.category = "Transport" then { s with Transport := s.Transport + t.amount }
    else if t.category = "Entertainment" then { s with Entertainment := s.Entertainment + t.amount }
    else if t.category = "Bills" then { s with Bills := s.Bills + t.amount }
    else if t.category = "Shopping" then { s with Shopping := s.Shopping + t.amount }
    else if t.category = "Healthcare" then { s with Healthcare := s.Healthcare + t.amount }
    else if t.category = "Education" then { s with Education := s.Education + t.amount }
    else { s with Other := s.Other + t.amount }
  else s

/-- `sum(spending_by_category.values())`. -/
def sumValues (s : Spending) : ℚ :=
  s.Food + s.Transport + s.Entertainment + s.Bills + s.Shopping +
    s.Healthcare + s.Education + s.Other

/-- Sum of the amounts of the expense-type transactions of a list. -/
def expenseSum (ts : List Transaction) : ℚ :=
  ((ts.filter (fun t => t.type = "expense")).map (fun t => t.amount)).sum

/-- The analysis dictionary returned by `analyze_spending`
(ai_model.py lines 157-167). -/
structure Analysis where
  spending : Spending
  total_income : ℚ
  total_expenses : ℚ
  balance : ℚ
  savings_rate : ℚ
  expense_ratio : ℚ
  food_pct : ℚ
  transport_pct : ℚ
  entertainment_pct : ℚ
deriving DecidableEq

/-- `BudgetAI.analyze_spending` (ai_model.py lines 121-167): accumulate the
expense transactions into the 8-slot breakdown, compute the balance, and the
percentage fields relative to income when `total_income > 0`, with the fixed
fallback values `-100 / 100 / 0 / 0 / 0` otherwise. -/
def analyze_spending (transactions : List Transaction)
    (total_income total_expenses : ℚ) : Analysis :=
  let spending_by_category := transactions.foldl addExpense initSpending
  let balance := total_income - total_expenses
  if total_income > 0 then
    { spending := spending_by_category
      total_income := total_income
      total_expenses := total_expenses
      balance := balance
      savings_rate := balance / total_income * 100
      expense_ratio := total_expenses / total_income * 100
      food_pct := spending_by_category.Food / total_income * 100
      transport_pct := spending_by_category.Transport / total_income * 100
      entertainment_pct := spending_by_category.Entertainment / total_income * 100 }
  else
    { spending := spending_by_category
      total_income := total_income
      total_expenses := total_expenses
      balance := balance
      savings_rate := -100
      expense_ratio := 100
      food_pct := 0
      transport_pct := 0
      entertainment_pct := 0 }

theorem addExpense_sumValues (s : Spending) (t : Transaction) :
    sumValues (addExpense s t) =
      sumValues s + (if t.type = "expense" then t.amount else 0) := by
  unfold addExpense sumValues
  split_ifs <;> simp <;> ring

theorem foldl_addExpense_sumValues (ts : List Transaction) (s : Spending) :
    sumValues (ts.foldl addExpense s) = sumValues s + expenseSum ts := by
  induction ts generalizing s with
  | nil => simp [expenseSum]
  | cons t ts ih =>
      simp only [List.foldl_cons, ih, addExpense_sumValues, expenseSum,
        List.filter_cons]
      by_cases h : t.type = "expense" <;> simp [h, expenseSum] <;> ring

theorem analyze_spending_spending (ts : List Transaction) (ti te : ℚ) :
    (analyze_spending ts ti te).spending = ts.foldl addExpense initSpending := by
  unfold analyze_spending
  split_ifs <;> rfl

/-- C1: whenever the caller-supplied income is nonpositive, the analysis
takes the division-by-zero fallback branch: savings rate exactly -100,
expense ratio exactly 100, the three category percentages exactly 0,
whatever the transactions and the expense total. -/
theorem analyze_spending_nonpos_income (ts : List Transaction) (ti te : ℚ)
    (h : ti ≤ 0) :
    (analyze_spending ts ti te).savings_rate = -100 ∧
    (analyze_spending ts ti te).expense_ratio = 100 ∧
    (analyze_spending ts ti te).food_pct = 0 ∧
    (analyze_spending ts ti te).transport_pct = 0 ∧
    (analyze_spending ts ti te).entertainment_pct = 0 := by
  unfold analyze_spending
  have hni : ¬ ti > 0 := not_lt.mpr h
  simp [hni]

theorem analyze_spending_nonpos_income_witness :
    (0 : ℚ) ≤ 0 ∧
    ((analyze_spending [⟨"expense", "Food", 30⟩] 0 30).savings_rate = -100 ∧
     (analyze_spending [⟨"expense", "Food", 30⟩] 0 30).expense_ratio = 100 ∧
     (analyze_spending [⟨"expense", "Food", 30⟩] 0 30).food_pct = 0 ∧
     (analyze_spending [⟨"expense", "Food", 30⟩] 0 30).transport_pct = 0 ∧
     (analyze_spending [⟨"expense", "Food", 30⟩] 0 30).entertainment_pct = 0) :=
  ⟨le_refl 0, analyze_spending_nonpos_income [⟨"expense", "Food", 30⟩] 0 30 (le_refl 0)⟩

/-- C2 as stated is false: the breakdown sums the expense transactions that
were actually supplied, while `total_expenses` is an independent
caller-supplied number. With no transactions and `total_expenses = 5`
(income 1 > 0) the breakdown sums to 0, not 5. -/
theorem breakdown_sum_cex :
    (0 : ℚ) < 1 ∧
    sumValues (analyze_spending ([] : List Transaction) 1 5).spending ≠ 5 := by
  constructor
  · norm_num
  · norm_num [analyze_spending, sumValues, initSpending]

/-- C2 amended: for positive income, the breakdown values sum to the
caller-supplied `total_expenses` provided that total agrees with the
transaction list, i.e. equals the sum of the amounts of its expense-type
transactions (unknown categories included, folded into `Other`). -/
theorem breakdown_sum_eq_total_expenses (ts : List Transaction) (ti te : ℚ)
    (hti : 0 < ti) (hte : te = expenseSum ts) :
    sumValues (analyze_spending ts ti te).spending = te := by
  rw [analyze_spending_spending, foldl_addExpense_sumValues, hte]
  simp [initSpending, sumValues]

theorem breakdown_sum_eq_total_expenses_witness :
    (0 : ℚ) < 100 ∧
    (50 : ℚ) = expenseSum [⟨"expense", "Food", 30⟩, ⟨"expense", "Gym", 20⟩,
      ⟨"income", "Salary", 100⟩] ∧
    sumValues (analyze_spending [⟨"expense", "Food", 30⟩, ⟨"expense", "Gym", 20⟩,
      ⟨"income", "Salary", 100⟩] 100 50).spending = 50 :=
  ⟨by norm_num, by simp [expenseSum, List.filter]; norm_num,
    breakdown_sum_eq_total_expenses
      [⟨"expense", "Food", 30⟩, ⟨"expense", "Gym", 20⟩, ⟨"income", "Salary", 100⟩]
      100 50 (by norm_num) (by simp [expenseSum, List.filter]; norm_num)⟩

/-- The fitted classifier artifact: scikit-learn's `RandomForestClassifier`
with a fixed seed is a deterministic function of its hyperparameters and
training data, so the fitted model is embedded as the record of those
(ai_model.py lines 95-102); its decision function is kept abstract and
passed as a parameter `rf` where prediction is needed. -/
structure RFModel where
  X : List (List ℤ)
  y : List ℤ
  n_estimators : ℕ
  max_depth : ℕ
  min_samples_split : ℕ
  random_state : ℕ
deriving DecidableEq

/-- `BudgetAI.create_training_data` (ai_model.py lines 22-86): the fixed
25-row table of feature vectors with its labels. -/
def create_training_data : List (List ℤ) × List ℤ :=
  ([[-50, 45, 30, 20, 150],
    [-100, 50, 35, 25, 200],
    [-30, 40, 28, 18, 130],
    [-80, 48, 32, 22, 180],
    [-200, 55, 40, 30, 250],
    [5, 38, 22, 18, 95],
    [8, 35, 20, 15, 92],
    [10, 40, 25, 20, 90],
    [12, 36, 23, 16, 88],
    [15, 42, 24, 19, 85],
    [20, 30, 15, 12, 80],
    [25, 28, 18, 14, 75],
    [22, 32, 16, 13, 78],
    [28, 29, 17, 11, 72],
    [24, 31, 14, 15, 76],
    [35, 25, 12, 10, 65],
    [38, 23, 10, 9, 62],
    [32, 27, 13, 11, 68],
    [40, 24, 11, 8, 60],
    [36, 26, 9, 12, 64],
    [45, 20, 8, 7, 55],
    [50, 18, 6, 6, 50],
    [48, 22, 7, 5, 52],
    [42, 19, 10, 8, 58],
    [55, 17, 5, 4, 45]],
   [0, 0, 0, 0, 0,
    1, 1, 1, 1, 1,
    2, 2, 2, 2, 2,
    3, 3, 3, 3, 3,
    4, 4, 4, 4, 4])

/-- The model produced by `train_model`: `RandomForestClassifier(n_estimators=50,
max_depth=6, min_samples_split=2, random_state=42)` fitted on the fixed table. -/
def fittedModel : RFModel :=
  { X := create_training_data.1
    y := create_training_data.2
    n_estimators := 50
    max_depth := 6
    min_samples_split := 2
    random_state := 42 }

/-- Contents of a file at the model path: either a valid pickle of a model,
or bytes that `pickle.load` cannot deserialize. -/
inductive Artifact where
  | valid (m : RFModel)
  | corrupt
deriving DecidableEq

/-- A Python exception escaping the engine. -/
inductive PyExn where
  | unpickleExn
  | noneModel
deriving DecidableEq

/-- `pickle.load` on an artifact file: a valid pickle yields the model it
serializes, corrupt bytes raise. -/
def pickle_load (a : Artifact) : Except PyExn RFModel :=
  match a with
  | Artifact.valid m => Except.ok m
  | Artifact.corrupt => Except.error PyExn.unpickleExn

/-- The mutable attributes of a `BudgetAI` instance
(ai_model.py lines 17-20). -/
structure BudgetAIState where
  model : Option RFModel
  is_trained : Bool
  model_path : String

/-- The engine state together with the filesystem it persists to: `disk`
maps a path to the artifact stored there, if any. -/
structure World where
  state : BudgetAIState
  disk : String → Option Artifact

/-- `BudgetAI.__init__` over a given filesystem: no model, untrained, fixed
artifact path. -/
def initWorld (d : String → Option Artifact) : World :=
  { state := { model := none, is_trained := false, model_path := "budget_ai_model.pkl" }
    disk := d }

/-- `BudgetAI.load_model` (ai_model.py lines 112-119): if a file exists at
the model path, pickle_load it into `self.model`, set `is_trained` and return
`True`; otherwise return `False`. A corrupt file raises. -/
def load_model (w : World) : Except PyExn (Bool × World) :=
  match w.disk w.state.model_path with
  | some a =>
      match pickle_load a with
      | Except.ok m =>
          Except.ok (true,
            { w with state := { w.state with model := some m, is_trained := true } })
      | Except.error e => Except.error e
  | none => Except.ok (false, w)

/-- `BudgetAI.save_model` (ai_model.py lines 107-110): pickle `self.model`
to the model path. `train_model` only calls it with a model present. -/
def save_model (w : World) (m : RFModel) : World :=
  { w with disk := fun p => if p = w.state.model_path then some (Artifact.valid m) else w.disk p }

/-- `BudgetAI.train_model` (ai_model.py lines 88-105): fit the forest on the
fixed table, persist it, set `is_trained` and return `True`. -/
def train_model (w : World) : Bool × World :=
  let m := fittedModel
  let w1 := { w with state := { w.state with model := some m } }
  let w2 := save_model w1 m
  let w3 := { w2 with state := { w2.state with is_trained := true } }
  (true, w3)

/-- `BudgetAI.get_profile_name` (ai_model.py lines 211-220): the fixed
5-entry lookup with default `"Unknown"`. -/
def get_profile_name (prediction : ℤ) : String :=
  if prediction = 0 then "Critical - Immediate Action Required"
  else if prediction = 1 then "Needs Improvement"
  else if prediction = 2 then "Moderate Budgeting"
  else if prediction = 3 then "Good Financial Health"
  else if prediction = 4 then "Excellent Budgeting"
  else "Unknown"

/-- One advice line of `generate_suggestions`, abstracted from its fixed
template text: each constructor stands for one distinct appended string of
ai_model.py lines 236-352, carrying exactly the numeric or textual values
the source interpolates into it (before display rounding). -/
inductive Tip where
  | urgentOverspending
  | currentStatus (balance savings_rate : ℚ)
  | immediateActions
  | cutFood (amount : ℚ)
  | cutEntertainment (amount : ℚ)
  | cutShopping (amount : ℚ)
  | cutTransport (amount : ℚ)
  | goalReduceExpenses (amount : ℚ)
  | noInvestmentsYet
  | prioritySteps
  | emergencyExpenseList
  | negotiateBills
  | sellUnusedItems
  | sideIncomeSources
  | rdAfterPositiveCashFlow
  | lowSavings (savings_rate balance : ℚ)
  | targetSavings20to25
  | foodShareOfIncome (amount pct : ℚ)
  | weeklyMealPrep (saving : ℚ)
  | packLunch
  | buyBulkSales
  | entertainmentTooHigh (amount pct : ℚ)
  | limitOneSubscription
  | freeEntertainment
  | potentialSavings (saving : ℚ)
  | reduceImpulseBuying (amount : ℚ)
  | wait24Hours
  | unsubscribePromotional
  | startSmall (balance : ℚ)
  | emergencyFund3Months (target : ℚ)
  | recurringDeposit1000
  | ppf500
  | mfSipAfter6Months
  | decentProgress (savings_rate balance : ℚ)
  | nextGoal30
  | optimizeFood (amount saving : ℚ)
  | transportReduce (amount : ℚ)
  | rule503020
  | growingPortfolio (balance : ℚ)
  | emergencyFundTarget (target : ℚ)
  | mfSip2500
  | ppf3000
  | fd10000
  | healthInsurance5L
  | strongFinances (savings_rate balance : ℚ)
  | aheadOf70Percent
  | topCategoryHighest (name : String) (amount : ℚ)
  | tenPercentReduction (saving : ℚ)
  | automateSavings
  | aggressiveGrowth (balance : ℚ)
  | emergencyFundComplete (target : ℚ)
  | equityMf5000
  | ppfMax
  | directStocks10000
  | reitInvestments
  | termInsurance1Cr
  | outstanding (savings_rate balance : ℚ)
  | top5Percent
  | maintainExcellence
  | trackEveryExpense
  | reviewQuarterly
  | shareStrategies
  | wealthBuildingMode (balance : ℚ)
  | aggressivePortfolioMix
  | equity60 (amount : ℚ)
  | debt20 (amount : ℚ)
  | gold10 (amount : ℚ)
  | international10 (amount : ℚ)
  | longTermGoals
  | realEstateDownPayment
  | retirementNps5000
  | childrenEducationFund
  | insuranceCoverage

/-- The suggestions dictionary returned by `generate_suggestions`
(ai_model.py lines 354-357). -/
structure Suggestions where
  savings : List Tip
  investment : List Tip

/-- `spending_by_category.items()` in Python dict insertion order. -/
def spendingItems (s : Spending) : List (String × ℚ) :=
  [("Food", s.Food), ("Transport", s.Transport), ("Entertainment", s.Entertainment),
   ("Bills", s.Bills), ("Shopping", s.Shopping), ("Healthcare", s.Healthcare),
   ("Education", s.Education), ("Other", s.Other)]

/-- `max(spending.items(), key=lambda x: x[1])` (ai_model.py line 318):
Python's `max` keeps the first element among equals, which the fold with a
strict comparison reproduces. -/
def topCategory (s : Spending) : String × ℚ :=
  (spendingItems s).foldl (fun best x => if x.2 > best.2 then x else best) ("Food", s.Food)

/-- `BudgetAI.generate_suggestions` (ai_model.py lines 222-357): dispatch on
the prediction (`0`, `1`, `2`, `3`, catch-all `else` for everything else)
and build the two ordered advice lists, with the category call-outs gated by
the source's threshold comparisons. -/
def generate_suggestions (prediction : ℤ) (analysis : Analysis) : Suggestions :=
  let spending := analysis.spending
  let balance := analysis.balance
  let savings_rate := analysis.savings_rate
  let total_income := analysis.total_income
  if prediction = 0 then
    { savings :=
        [Tip.urgentOverspending, Tip.currentStatus balance savings_rate,
         Tip.immediateActions]
        ++ (if spending.Food > total_income * 0.3 then [Tip.cutFood spending.Food] else [])
        ++ (if spending.Entertainment > total_income * 0.15 then
              [Tip.cutEntertainment spending.Entertainment] else [])
        ++ (if spending.Shopping > total_income * 0.15 then
              [Tip.cutShopping spending.Shopping] else [])
        ++ (if spending.Transport > total_income * 0.15 then
              [Tip.cutTransport spending.Transport] else [])
        ++ [Tip.goalReduceExpenses |balance|]
      investment :=
        [Tip.noInvestmentsYet, Tip.prioritySteps, Tip.emergencyExpenseList,
         Tip.negotiateBills, Tip.sellUnusedItems, Tip.sideIncomeSources,
         Tip.rdAfterPositiveCashFlow] }
  else if prediction = 1 then
    { savings :=
        [Tip.lowSavings savings_rate balance, Tip.targetSavings20to25]
        ++ (if spending.Food > total_income * 0.25 then
              [Tip.foodShareOfIncome spending.Food (spending.Food / total_income * 100),
               Tip.weeklyMealPrep (spending.Food * 0.2), Tip.packLunch,
               Tip.buyBulkSales] else [])
        ++ (if spending.Entertainment > total_income * 0.1 then
              [Tip.entertainmentTooHigh spending.Entertainment
                 (spending.Entertainment / total_income * 100),
               Tip.limitOneSubscription, Tip.freeEntertainment,
               Tip.potentialSavings (spending.Entertainment * 0.3)] else [])
        ++ (if spending.Shopping > total_income * 0.15 then
              [Tip.reduceImpulseBuying spending.Shopping, Tip.wait24Hours,
               Tip.unsubscribePromotional] else [])
      investment :=
        [Tip.startSmall balance,
         Tip.emergencyFund3Months (analysis.total_expenses * 3),
         Tip.recurringDeposit1000, Tip.ppf500, Tip.mfSipAfter6Months] }
  else if prediction = 2 then
    { savings :=
        [Tip.decentProgress savings_rate balance, Tip.nextGoal30]
        ++ (if spending.Food > total_income * 0.2 then
              [Tip.optimizeFood spending.Food (spending.Food * 0.15)] else [])
        ++ (if spending.Transport > total_income * 0.1 then
              [Tip.transportReduce spending.Transport] else [])
        ++ [Tip.rule503020]
      investment :=
        [Tip.growingPortfolio balance,
         Tip.emergencyFundTarget (analysis.total_expenses * 6),
         Tip.mfSip2500, Tip.ppf3000, Tip.fd10000, Tip.healthInsurance5L] }
  else if prediction = 3 then
    { savings :=
        [Tip.strongFinances savings_rate balance, Tip.aheadOf70Percent]
        ++ (if sumValues spending > 0 then
              (if (topCategory spending).2 > total_income * 0.15 then
                 [Tip.topCategoryHighest (topCategory spending).1 (topCategory spending).2,
                  Tip.tenPercentReduction ((topCategory spending).2 * 0.1)]
               else [])
            else [])
        ++ [Tip.automateSavings]
      investment :=
        [Tip.aggressiveGrowth balance,
         Tip.emergencyFundComplete (analysis.total_expenses * 6),
         Tip.equityMf5000, Tip.ppfMax, Tip.directStocks10000,
         Tip.reitInvestments, Tip.termInsurance1Cr] }
  else
    { savings :=
        [Tip.outstanding savings_rate balance, Tip.top5Percent,
         Tip.maintainExcellence, Tip.trackEveryExpense, Tip.reviewQuarterly,
         Tip.shareStrategies]
      investment :=
        [Tip.wealthBuildingMode balance, Tip.aggressivePortfolioMix,
         Tip.equity60 (balance * 0.6), Tip.debt20 (balance * 0.2),
         Tip.gold10 (balance * 0.1), Tip.international10 (balance * 0.1),
         Tip.longTermGoals, Tip.realEstateDownPayment, Tip.retirementNps5000,
         Tip.childrenEducationFund, Tip.insuranceCoverage] }

/-- The error message of the structured `ModelNotTrained` failure
(ai_model.py line 177). -/
def modelNotTrainedMsg : String := "Model not trained. Click \"Train AI Model\" first!"

/-- The error message of the structured `NoTransactions` failure
(ai_model.py line 183). -/
def noTransactionsMsg : String := "No transactions found. Add transactions first!"

/-- The payload `predict_and_suggest` returns: either the
`{'success': False, 'error': ...}` dictionary or the
`{'success': True, ...}` dictionary (ai_model.py lines 175-178, 181-184,
203-209). -/
inductive PSResult where
  | failure (error : String)
  | success (prediction : ℤ) (profile : String) (suggestions : Suggestions)
      (analysis : Analysis)

/-- Body of `predict_and_suggest` after the trained/loaded check, over the
possibly-updated engine state (ai_model.py lines 180-209). `rf` is the
decision function of the fitted forest (`self.model.predict`); calling it on
a `None` model raises. -/
def predict_body (rf : RFModel → List ℚ → ℤ) (w : World)
    (transactions : List Transaction) (total_income total_expenses : ℚ) :
    Except PyExn (PSResult × World) :=
  if transactions.length = 0 then
    Except.ok (PSResult.failure noTransactionsMsg, w)
  else
    let analysis := analyze_spending transactions total_income total_expenses
    let features := [analysis.savings_rate, analysis.food_pct,
      analysis.entertainment_pct, analysis.transport_pct, analysis.expense_ratio]
    match w.state.model with
    | none => Except.error PyExn.noneModel
    | some m =>
        let prediction := rf m features
        let suggestions := generate_suggestions prediction analysis
        Except.ok (PSResult.success prediction (get_profile_name prediction)
          suggestions analysis, w)

/-- `BudgetAI.predict_and_suggest` (ai_model.py lines 169-209): if the
in-memory model is untrained, try to load the artifact, failing with the
`ModelNotTrained` message when no artifact exists (a corrupt artifact lets
the unpickling exception escape); then check for transactions, analyze,
predict and assemble the success payload. -/
def predict_and_suggest (rf : RFModel → List ℚ → ℤ) (w : World)
    (transactions : List Transaction) (total_income total_expenses : ℚ) :
    Except PyExn (PSResult × World) :=
  if w.state.is_trained then
    predict_body rf w transactions total_income total_expenses
  else
    match load_model w with
    | Except.error e => Except.error e
    | Except.ok (false, w1) => Except.ok (PSResult.failure modelNotTrainedMsg, w1)
    | Except.ok (true, w1) => predict_body rf w1 transactions total_income total_expenses

/-- A filesystem with no artifact anywhere. -/
def emptyDisk : String → Option Artifact := fun _ => none

/-- A fresh engine over an empty filesystem. -/
def untrainedW : World := initWorld emptyDisk

/-- An engine whose in-memory model is trained (as after `train_model` in
the same process), over an empty filesystem. -/
def trainedW : World :=
  { state := { model := some fittedModel, is_trained := true,
               model_path := "budget_ai_model.pkl" }
    disk := emptyDisk }

/-- A fresh engine over a filesystem holding corrupt bytes at every path,
in particular at the model path. -/
def corruptW : World :=
  { state := { model := none, is_trained := false,
               model_path := "budget_ai_model.pkl" }
    disk := fun _ => some Artifact.corrupt }

/-- A decision function for instantiations: always tier 0. -/
def rfZero : RFModel → List ℚ → ℤ := fun _ _ => 0

/-- A decision function for instantiations: always tier 1. -/
def rfOne : RFModel → List ℚ → ℤ := fun _ _ => 1

/-- A sample expense transaction. -/
def tx1 : Transaction := ⟨"expense", "Food", 70⟩

/-- The orchestrator returned the full success payload. -/
def isSuccess (r : Except PyExn (PSResult × World)) : Prop :=
  match r with
  | Except.ok (PSResult.success _ _ _ _, _) => True
  | _ => False

theorem predict_body_nil (rf : RFModel → List ℚ → ℤ) (w : World) (ti te : ℚ) :
    predict_body rf w [] ti te = Except.ok (PSResult.failure noTransactionsMsg, w) := by
  simp [predict_body]

theorem predict_body_ok_world (rf : RFModel → List ℚ → ℤ) (w : World)
    (ts : List Transaction) (ti te : ℚ) (r : PSResult) (w1 : World)
    (h : predict_body rf w ts ti te = Except.ok (r, w1)) : w1 = w := by
  unfold predict_body at h
  split at h
  · simp only [Except.ok.injEq, Prod.mk.injEq] at h
    exact h.2.symm
  · split at h
    · exact absurd h (by simp)
    · simp only [Except.ok.injEq, Prod.mk.injEq] at h
      exact h.2.symm

/-- C4: on a trained or loadable engine, an empty transaction list makes
`predict_and_suggest` fail with the `NoTransactions` message without ever
consulting the decision function (the result is the same for any two
decision functions); and the trained/loadable check comes first: an
untrained engine with no artifact fails with the `ModelNotTrained` message
even on an empty transaction list. -/
theorem predict_and_suggest_empty_transactions (rf rf2 : RFModel → List ℚ → ℤ)
    (w : World) (ti te : ℚ) :
    (w.state.is_trained = true ∨
        (∃ m, w.disk w.state.model_path = some (Artifact.valid m)) →
      ∃ w1, predict_and_suggest rf w [] ti te =
              Except.ok (PSResult.failure noTransactionsMsg, w1) ∧
            predict_and_suggest rf2 w [] ti te =
              Except.ok (PSResult.failure noTransactionsMsg, w1)) ∧
    (w.state.is_trained = false → w.disk w.state.model_path = none →
      predict_and_suggest rf w [] ti te =
        Except.ok (PSResult.failure modelNotTrainedMsg, w)) := by
  constructor
  · intro h
    rcases h with ht | ⟨m, hm⟩
    · exact ⟨w, by simp [predict_and_suggest, ht, predict_body_nil],
              by simp [predict_and_suggest, ht, predict_body_nil]⟩
    · cases ht : w.state.is_trained
      · refine ⟨{ w with state := { w.state with model := some m, is_trained := true } }, ?_, ?_⟩
        · simp [predict_and_suggest, ht, load_model, hm, pickle_load, predict_body_nil]
        · simp [predict_and_suggest, ht, load_model, hm, pickle_load, predict_body_nil]
      · exact ⟨w, by simp [predict_and_suggest, ht, predict_body_nil],
                by simp [predict_and_suggest, ht, predict_body_nil]⟩
  · intro ht hd
    simp [predict_and_suggest, ht, load_model, hd]

theorem predict_and_suggest_empty_transactions_witness :
    (∃ w1, predict_and_suggest rfZero trainedW [] 100 50 =
             Except.ok (PSResult.failure noTransactionsMsg, w1) ∧
           predict_and_suggest rfOne trainedW [] 100 50 =
             Except.ok (PSResult.failure noTransactionsMsg, w1)) ∧
    predict_and_suggest rfZero untrainedW [] 100 50 =
      Except.ok (PSResult.failure modelNotTrainedMsg, untrainedW) :=
  ⟨(predict_and_suggest_empty_transactions rfZero rfOne trainedW 100 50).1 (Or.inl rfl),
   (predict_and_suggest_empty_transactions rfZero rfOne untrainedW 100 50).2 rfl rfl⟩

/-- C5: on an untrained engine with no artifact on disk,
`predict_and_suggest` fails with the `ModelNotTrained` message for every
input, leaving the state unchanged; and the failure is recoverable: after
`train_model`, the same call with a non-empty transaction list fully
succeeds. -/
theorem predict_and_suggest_untrained (rf : RFModel → List ℚ → ℤ) (w : World)
    (ts : List Transaction) (ti te : ℚ)
    (ht : w.state.is_trained = false) (hd : w.disk w.state.model_path = none) :
    predict_and_suggest rf w ts ti te =
      Except.ok (PSResult.failure modelNotTrainedMsg, w) ∧
    (ts ≠ [] → isSuccess (predict_and_suggest rf (train_model w).2 ts ti te)) := by
  constructor
  · simp [predict_and_suggest, ht, load_model, hd]
  · intro hts
    have hlen : ¬ ts.length = 0 := by simpa using hts
    simp [predict_and_suggest, train_model, save_model, predict_body, hlen, isSuccess]

theorem predict_and_suggest_untrained_witness :
    predict_and_suggest rfZero untrainedW [tx1] 100 50 =
      Except.ok (PSResult.failure modelNotTrainedMsg, untrainedW) ∧
    isSuccess (predict_and_suggest rfZero (train_model untrainedW).2 [tx1] 100 50) :=
  ⟨(predict_and_suggest_untrained rfZero untrainedW [tx1] 100 50 rfl rfl).1,
   (predict_and_suggest_untrained rfZero untrainedW [tx1] 100 50 rfl rfl).2 (by simp)⟩

/-- C3 as stated is false: with corrupt bytes at the model path and an
untrained engine, the unpickling exception raised inside `load_model`
escapes `predict_and_suggest` instead of being returned as a structured
`success == false` payload of kind `SerializationError`. -/
theorem predict_and_suggest_throws_cex :
    predict_and_suggest rfZero corruptW [tx1] 100 50 =
      Except.error PyExn.unpickleExn := by
  simp [predict_and_suggest, corruptW, load_model, pickle_load]

/-- C3 amended: every structured failure `predict_and_suggest` returns
carries one of exactly two error kinds, the `ModelNotTrained` or the
`NoTransactions` message (success is total otherwise), but there is no
structured `SerializationError`: on an untrained engine whose artifact is
corrupt, the deserialization exception propagates across the boundary. -/
theorem predict_and_suggest_error_kinds (rf : RFModel → List ℚ → ℤ) (w : World)
    (ts : List Transaction) (ti te : ℚ) :
    (∀ msg w1, predict_and_suggest rf w ts ti te =
        Except.ok (PSResult.failure msg, w1) →
      msg = modelNotTrainedMsg ∨ msg = noTransactionsMsg) ∧
    (w.state.is_trained = false →
     w.disk w.state.model_path = some Artifact.corrupt →
      predict_and_suggest rf w ts ti te = Except.error PyExn.unpickleExn) := by
  constructor
  · intro msg w1 h
    unfold predict_and_suggest load_model predict_body at h
    split at h
    · split at h
      · right
        simp only [Except.ok.injEq, Prod.mk.injEq, PSResult.failure.injEq] at h
        exact h.1.symm
      · split at h
        · exact absurd h (by simp)
        · exact absurd h (by simp)
    · split at h
      · exact absurd h (by simp)
      · rename_i heq
        split at heq
        · split at heq
          · simp only [Except.ok.injEq, Prod.mk.injEq, Bool.true_eq_false] at heq
            exact absurd heq.1 (by simp)
          · exact absurd heq (by simp)
        · simp only [Except.ok.injEq, Prod.mk.injEq] at heq
          left
          simp only [Except.ok.injEq, Prod.mk.injEq, PSResult.failure.injEq] at h
          exact h.1.symm
      · rename_i heq
        split at h
        · right
          simp only [Except.ok.injEq, Prod.mk.injEq, PSResult.failure.injEq] at h
          exact h.1.symm
        · split at h
          · exact absurd h (by simp)
          · exact absurd h (by simp)
  · intro ht hd
    simp [predict_and_suggest, ht, load_model, hd, pickle_load]

theorem predict_and_suggest_error_kinds_witness :
    (modelNotTrainedMsg = modelNotTrainedMsg ∨
     modelNotTrainedMsg = noTransactionsMsg) ∧
    predict_and_suggest rfOne corruptW [tx1] 10 5 =
      Except.error PyExn.unpickleExn :=
  ⟨(predict_and_suggest_error_kinds rfZero untrainedW [tx1] 10 5).1
      modelNotTrainedMsg untrainedW
      (by simp [predict_and_suggest, untrainedW, initWorld, emptyDisk, load_model]),
   (predict_and_suggest_error_kinds rfOne corruptW [tx1] 10 5).2 rfl rfl⟩

/-- C7: prediction and advice are deterministic: a successful or
structured-failure call of `predict_and_suggest` is reproducible — calling
it again with the same decision function and inputs, from the state the
first call produced (in particular, on the model loaded from the same
artifact), returns the very same payload: same tier, same profile, and the
identical ordered advice lists, since `generate_suggestions` is a pure
function of the prediction and the analysis. -/
theorem predict_and_suggest_deterministic (rf : RFModel → List ℚ → ℤ)
    (w : World) (ts : List Transaction) (ti te : ℚ) (r : PSResult) (w1 : World)
    (h : predict_and_suggest rf w ts ti te = Except.ok (r, w1)) :
    predict_and_suggest rf w1 ts ti te = Except.ok (r, w1) := by
  cases ht : w.state.is_trained
  · rw [predict_and_suggest] at h
    rw [ht] at h
    simp only [Bool.false_eq_true, if_false] at h
    rw [load_model] at h
    cases hd : w.disk w.state.model_path
    · rw [hd] at h
      simp only [Except.ok.injEq, Prod.mk.injEq] at h
      obtain ⟨hr, hw⟩ := h
      subst hw
      simp [predict_and_suggest, ht, load_model, hd, hr.symm]
    · rename_i a
      rw [hd] at h
      cases a
      · rename_i m
        simp only [pickle_load] at h
        have hw := predict_body_ok_world rf _ ts ti te r w1 h
        subst hw
        simp only [predict_and_suggest]
        simpa using h
      · simp [pickle_load] at h
  · rw [predict_and_suggest] at h
    rw [ht] at h
    simp only [if_true] at h
    have hw := predict_body_ok_world rf w ts ti te r w1 h
    subst hw
    simp only [predict_and_suggest]
    rw [ht]
    simp only [if_true]
    exact h

theorem predict_and_suggest_deterministic_witness :
    predict_and_suggest rfZero trainedW [tx1] 100 50 =
      Except.ok (PSResult.success 0 (get_profile_name 0)
        (generate_suggestions 0 (analyze_spending [tx1] 100 50))
        (analyze_spending [tx1] 100 50), trainedW) :=
  predict_and_suggest_deterministic rfZero trainedW [tx1] 100 50 _ _ (by rfl)

/-- C9: `train_model` has no failure path: from every starting state it
returns `True`, afterwards `is_trained` holds, the in-memory model is the
newly fitted forest, and the artifact at the fixed path
`budget_ai_model.pkl` has been created or overwritten with that model. -/
theorem train_model_always_succeeds (w : World)
    (hp : w.state.model_path = "budget_ai_model.pkl") :
    (train_model w).1 = true ∧
    (train_model w).2.state.is_trained = true ∧
    (train_model w).2.state.model = some fittedModel ∧
    (train_model w).2.disk "budget_ai_model.pkl" =
      some (Artifact.valid fittedModel) := by
  refine ⟨rfl, rfl, rfl, ?_⟩
  simp [train_model, save_model, hp]

theorem train_model_always_succeeds_witness :
    (train_model untrainedW).1 = true ∧
    (train_model untrainedW).2.state.is_trained = true ∧
    (train_model untrainedW).2.state.model = some fittedModel ∧
    (train_model untrainedW).2.disk "budget_ai_model.pkl" =
      some (Artifact.valid fittedModel) :=
  train_model_always_succeeds untrainedW rfl

/-- C10: the advice dispatch is total over the prediction through the
catch-all `else` branch: any prediction other than 0, 1, 2, 3 — including
values outside the 0-4 tier range — yields exactly the Excellent (tier 4)
advice, while `get_profile_name` instead returns `"Unknown"` for any
prediction outside 0-4. -/
theorem generate_suggestions_catch_all (p : ℤ) (an : Analysis)
    (h0 : p ≠ 0) (h1 : p ≠ 1) (h2 : p ≠ 2) (h3 : p ≠ 3) :
    generate_suggestions p an = generate_suggestions 4 an ∧
    (p < 0 ∨ 4 < p → get_profile_name p = "Unknown") := by
  constructor
  · unfold generate_suggestions
    simp [h0, h1, h2, h3]
  · intro hp
    have h4 : p ≠ 4 := by rcases hp with hp | hp <;> omega
    unfold get_profile_name
    simp [h0, h1, h2, h3, h4]

/-- A concrete analysis with balance -80 and income 200, as produced for a
user who spent 70 on Food and 10 on Transport. -/
def anEx : Analysis :=
  { spending := ⟨70, 10, 0, 0, 0, 0, 0, 0⟩
    total_income := 200
    total_expenses := 280
    balance := -80
    savings_rate := -40
    expense_ratio := 140
    food_pct := 35
    transport_pct := 5
    entertainment_pct := 0 }

theorem generate_suggestions_catch_all_witness :
    (generate_suggestions 7 anEx = generate_suggestions 4 anEx ∧
      ((7 : ℤ) < 0 ∨ (4 : ℤ) < 7 → get_profile_name 7 = "Unknown")) ∧
    (generate_suggestions (-1) anEx = generate_suggestions 4 anEx ∧
      ((-1 : ℤ) < 0 ∨ (4 : ℤ) < -1 → get_profile_name (-1) = "Unknown")) :=
  ⟨generate_suggestions_catch_all 7 anEx (by decide) (by decide) (by decide) (by decide),
   generate_suggestions_catch_all (-1) anEx (by decide) (by decide) (by decide) (by decide)⟩

/-- C6: in the tier-0 (Critical) branch, the Food call-out appears in the
savings list exactly when Food spending exceeds 30% of income, and the
Entertainment, Shopping and Transport call-outs exactly when that category
exceeds 15% of income; the goal line is always present and its amount is
the absolute value of the balance (so with balance -80 and income 200 the
goal line references 80, and Food is flagged only above 60). -/
theorem generate_suggestions_tier0 (an : Analysis) :
    (Tip.cutFood an.spending.Food ∈ (generate_suggestions 0 an).savings ↔
       an.spending.Food > an.total_income * 0.3) ∧
    (Tip.cutEntertainment an.spending.Entertainment ∈
        (generate_suggestions 0 an).savings ↔
       an.spending.Entertainment > an.total_income * 0.15) ∧
    (Tip.cutShopping an.spending.Shopping ∈ (generate_suggestions 0 an).savings ↔
       an.spending.Shopping > an.total_income * 0.15) ∧
    (Tip.cutTransport an.spending.Transport ∈ (generate_suggestions 0 an).savings ↔
       an.spending.Transport > an.total_income * 0.15) ∧
    Tip.goalReduceExpenses |an.balance| ∈ (generate_suggestions 0 an).savings := by
  unfold generate_suggestions
  norm_num
  simp

theorem generate_suggestions_tier0_witness :
    Tip.cutFood 70 ∈ (generate_suggestions 0 anEx).savings ∧
    Tip.goalReduceExpenses 80 ∈ (generate_suggestions 0 anEx).savings := by
  have h := generate_suggestions_tier0 anEx
  constructor
  · exact h.1.mpr (by norm_num [anEx])
  · have h5 := h.2.2.2.2
    have hb : |anEx.balance| = (80 : ℚ) := by
      rw [show anEx.balance = (-80 : ℚ) from rfl]
      rw [abs_of_nonpos (by norm_num)]
      norm_num
    rwa [hb] at h5
